import Mathlib

/-!
Verification of `pydumbinit` (src/pydumbinit.py), a minimal init process
that forwards signals to a single tracked child and reaps descendants.

The Python module-level state is modelled explicitly:
* `SIGMAP = dict.fromkeys(range(1, MAXSIG + 1), -1)` — the signal rewrite
  table; a Python dict whose keys may in principle be ints or strings
  (string keys could only arise in `parse_rewrite_signum`, which receives
  the pieces of `arg.split(":")` as strings), so it is modelled as a pair
  of partial maps, one for int keys and one for str keys.
* `IGNORED_SIGMAP = dict.fromkeys(range(MAXSIG), False)` — the
  ignore-once flags, keys 0..30.
* `child_pid` / `use_setsid` — the module globals read by
  `forward_signal` and `handle_signal`. Beware: `run` (line 115) assigns
  `child_pid = os.fork()` with no `global child_pid` declaration, so it
  binds a function-local name and the module global modelled here keeps
  its initial value -1 in every execution of the program; the state
  field carries whatever the global holds, which reachably is only -1.

Side effects (`os.kill`, self-suspension) are modelled as an explicit
list of `Action`s; `sys.exit` as an `Outcome.exit`; the queue of
not-yet-reaped dead descendants that `os.waitpid(-1, os.WNOHANG)` drains
is modelled as a list of `(pid, wait-status)` pairs carried in the state.
Python exceptions are modelled with `Except PyExc`.
-/

namespace PyDumbInit

/-- `MAXSIG = 31` from the source. -/
def MAXSIG : Int := 31

/-- Signal numbers used by the source (Linux numbering, via the
`signal` module): SIGHUP, SIGKILL, SIGTERM, SIGCHLD, SIGCONT, SIGSTOP,
SIGTSTP, SIGTTIN, SIGTTOU. -/
def SIGHUP : Int := 1
def SIGKILL : Int := 9
def SIGTERM : Int := 15
def SIGCHLD : Int := 17
def SIGCONT : Int := 18
def SIGSTOP : Int := 19
def SIGTSTP : Int := 20
def SIGTTIN : Int := 21
def SIGTTOU : Int := 22

/-- Python exceptions relevant to this program. -/
inductive PyExc where
  | valueError
  | typeError
  | keyError
deriving DecidableEq, Repr

/-- The `SIGMAP` dict. Int keys model entries such as the initial
`dict.fromkeys(range(1, MAXSIG + 1), -1)`; str keys model entries that
would be written by `SIGMAP[signum] = replacement` in
`parse_rewrite_signum`, whose `signum`/`replacement` are strings. `none`
means the key is absent from the dict. -/
structure SigMap where
  ints : Int → Option Int
  strs : List Char → Option (List Char)

/-- `SIGMAP = dict.fromkeys(range(1, MAXSIG + 1), -1)`: keys 1..31 all
mapped to -1, no string keys. -/
def initSIGMAP : SigMap :=
  { ints := fun s => if 1 ≤ s ∧ s ≤ MAXSIG then some (-1) else none
    strs := fun _ => none }

/-- `SIGMAP[k] = v` for an int key `k`. -/
def SigMap.setInt (m : SigMap) (k v : Int) : SigMap :=
  { m with ints := fun x => if x = k then some v else m.ints x }

/-- `SIGMAP[k] = v` for a str key `k` (strings are modelled as lists of
characters so that all string operations stay kernel-executable). -/
def SigMap.setStr (m : SigMap) (k v : List Char) : SigMap :=
  { m with strs := fun x => if x = k then some v else m.strs x }

/-- `SIGMAP.get(k, d)` for an int key: the stored value if present, else
the default. -/
def SigMap.getD (m : SigMap) (k d : Int) : Int :=
  (m.ints k).getD d

/-- `IGNORED_SIGMAP` dict: int keys to bools; `none` = key absent
(subscripting an absent key raises KeyError). -/
def IgnMap := Int → Option Bool

/-- `IGNORED_SIGMAP = dict.fromkeys(range(MAXSIG), False)`: keys 0..30
(note: NOT 31), all False. -/
def initIGNORED : IgnMap :=
  fun s => if 0 ≤ s ∧ s < MAXSIG then some false else none

/-- `IGNORED_SIGMAP[k] = v`. -/
def IgnMap.set (m : IgnMap) (k : Int) (v : Bool) : IgnMap :=
  fun x => if x = k then some v else m x

/-- `translate_signal` (src/pydumbinit.py lines 24-30):

    if SIGMAP.get(signum, -1) > 0:
        res = SIGMAP[signum]
        return res
    else:
        return signum

When the guarded get returned a value > 0 the key is present (the
default -1 is not > 0), so the subscript `SIGMAP[signum]` returns that
same value. The function only reads `SIGMAP`; it is embedded as a pure
function of the table, which captures that it never modifies it. -/
def translate_signal (sigmap : SigMap) (signum : Int) : Int :=
  if sigmap.getD signum (-1) > 0 then
    sigmap.getD signum (-1)
  else
    signum

/-- One observable side effect of the signal-handling code. -/
inductive Action where
  | kill (target : Int) (sig : Int)
  | selfStop
deriving DecidableEq, Repr

/-- `forward_signal` (lines 33-39):

    signum = translate_signal(signum)
    if signum != 0:
        os.kill(-child_pid if use_setsid else child_pid, signum)
    else: (log only)

Returned as the list of `os.kill` calls performed. -/
def forward_signal (sigmap : SigMap) (child_pid : Int) (use_setsid : Bool)
    (signum : Int) : List Action :=
  let s := translate_signal sigmap signum
  if s ≠ 0 then
    [Action.kill (if use_setsid then -child_pid else child_pid) s]
  else
    []

/-- The wait status of a reaped descendant, as inspected by the source
via `os.WIFEXITED` / `os.WEXITSTATUS` / `os.WIFSIGNALED` / `os.WTERMSIG`:
either it exited normally with a code, or a signal terminated it. -/
inductive WaitStatus where
  | exited (code : Int)
  | signaled (sig : Int)
deriving DecidableEq, Repr

/-- The `exit_status` computed in `handle_signal`'s reap loop (lines
50-60): `os.WEXITSTATUS(status)` for a normal exit, else (after
`assert os.WIFSIGNALED(status)`, trivially true here)
`128 + os.WTERMSIG(status)`. -/
def exit_status_of : WaitStatus → Int
  | .exited code => code
  | .signaled sig => 128 + sig

/-- The mutable process state touched by `handle_signal`: the rewrite
table, the ignore-once flags, the module globals `child_pid` and
`use_setsid` exactly as the handler reads them (note that `run` never
updates the global `child_pid` — its line-115 assignment is to a local —
so in the running program this field is always the initial -1), and the
queue of dead descendants that `os.waitpid(-1, os.WNOHANG)` has not yet
reaped (head is returned first; an empty queue makes `waitpid` return
`(0, 0)`, which is faithful while some child is still alive). -/
structure St where
  sigmap : SigMap
  ignored : IgnMap
  child_pid : Int
  use_setsid : Bool
  pending : List (Int × WaitStatus)

/-- What one call of `handle_signal` does to the process: continue the
proxy loop in a new state having performed some kills, `sys.exit(code)`
having performed some kills, or raise `KeyError` (subscripting
`IGNORED_SIGMAP` on an absent key such as 31). -/
inductive Outcome where
  | continue_ (st : St) (acts : List Action)
  | exit (code : Int) (acts : List Action)
  | keyError

/-- The reap loop of `handle_signal` (lines 48-67):

    killed_pid, status = os.waitpid(-1, os.WNOHANG)
    while killed_pid > 0:
        <derive exit_status, log>
        if killed_pid == child_pid:
            forward_signal(signal.SIGTERM)
            sys.exit(exit_status)
        killed_pid, status = os.waitpid(-1, os.WNOHANG)

Returns the kills performed, `some exit_code` if `sys.exit` was reached,
and the queue left unreaped. -/
def reap_loop (sigmap : SigMap) (child_pid : Int) (use_setsid : Bool) :
    List (Int × WaitStatus) → List Action × Option Int × List (Int × WaitStatus)
  | [] => ([], none, [])
  | (killed_pid, status) :: rest =>
    if killed_pid > 0 then
      if killed_pid = child_pid then
        (forward_signal sigmap child_pid use_setsid SIGTERM,
         some (exit_status_of status), rest)
      else
        reap_loop sigmap child_pid use_setsid rest
    else
      ([], none, rest)

/-- `handle_signal` (lines 42-72):

    if IGNORED_SIGMAP[signum]:
        IGNORED_SIGMAP[signum] = False
    elif signum == signal.SIGCHLD:
        <reap loop, see reap_loop>
    else:
        forward_signal(signum)
        if signum in {signal.SIGTSTP, signal.SIGTTOU, signal.SIGTTIN}:
            os.kill(os.getpid(), signal.SIGSTOP)
-/
def handle_signal (st : St) (signum : Int) : Outcome :=
  match st.ignored signum with
  | none => .keyError
  | some true =>
    .continue_ { st with ignored := st.ignored.set signum false } []
  | some false =>
    if signum = SIGCHLD then
      match reap_loop st.sigmap st.child_pid st.use_setsid st.pending with
      | (acts, some code, _) => .exit code acts
      | (acts, none, rest) => .continue_ { st with pending := rest } acts
    else
      let acts := forward_signal st.sigmap st.child_pid st.use_setsid signum
      let acts :=
        if signum = SIGTSTP ∨ signum = SIGTTOU ∨ signum = SIGTTIN then
          acts ++ [Action.selfStop]
        else
          acts
      .continue_ st acts

/-- State kept by `Outcome.continue_`, if any. -/
def Outcome.state : Outcome → Option St
  | .continue_ st _ => some st
  | _ => none

/-- Kills performed by the outcome (empty for a KeyError). -/
def Outcome.acts : Outcome → List Action
  | .continue_ _ acts => acts
  | .exit _ acts => acts
  | .keyError => []

/-- `some code` when the outcome is `sys.exit(code)`. -/
def Outcome.exitCode : Outcome → Option Int
  | .exit code _ => some code
  | _ => none

/-- Python's `str.split(sep)` for a one-character separator, on strings
modelled as character lists: split at every occurrence of `sep`, keeping
empty pieces (`"a:b".split(":") == ["a", "b"]`,
`"ab".split(":") == ["ab"]`, `":".split(":") == ["", ""]`). -/
def pySplit (sep : Char) : List Char → List (List Char)
  | [] => [[]]
  | c :: rest =>
    if c = sep then
      [] :: pySplit sep rest
    else
      match pySplit sep rest with
      | [] => [[c]]
      | piece :: pieces => (c :: piece) :: pieces

/-- In Python 3, `<` between a `str` and an `int` raises `TypeError`.
`parse_rewrite_signum` performs exactly such comparisons, because the
pieces of `arg.split(":")` are strings and are never converted with
`int(...)`. -/
def pyLtStrInt (_s : List Char) (_n : Int) : Except PyExc Bool :=
  .error .typeError

/-- `>` between a `str` and an `int`: also `TypeError` in Python 3. -/
def pyGtStrInt (_s : List Char) (_n : Int) : Except PyExc Bool :=
  .error .typeError

/-- The `try` body of `parse_rewrite_signum` (lines 77-80):

    signum, replacement = arg.split(":")
    if signum < 1 or signum > MAXSIG or replacement < 0 or replacement > MAXSIG:
        raise ValueError
    SIGMAP[signum] = replacement

Unpacking into two names raises `ValueError` unless the split has
exactly two pieces; the `or` chain evaluates left to right; the dict
assignment (if it were reached) would store under a string key. -/
def parse_rewrite_body (sigmap : SigMap) (arg : String) :
    Except PyExc SigMap := do
  match pySplit ':' arg.toList with
  | [signum, replacement] =>
    let c1 ← pyLtStrInt signum 1
    let cond ←
      if c1 then pure true else do
        let c2 ← pyGtStrInt signum MAXSIG
        if c2 then pure true else do
          let c3 ← pyLtStrInt replacement 0
          if c3 then pure true else pyGtStrInt replacement MAXSIG
    if cond then throw .valueError
    else pure (sigmap.setStr signum replacement)
  | _ => throw .valueError

/-- `parse_rewrite_signum` (lines 75-82): runs the `try` body;
`except ValueError` catches only `ValueError` and logs "Incorrect
rewrite format" (the `Bool` records that the error was logged); any
other exception propagates to the caller. -/
def parse_rewrite_signum (sigmap : SigMap) (arg : String) :
    Except PyExc (SigMap × Bool) :=
  match parse_rewrite_body sigmap arg with
  | .ok m => .ok (m, false)
  | .error .valueError => .ok (sigmap, true)
  | .error e => .error e

/-- `set_rewrite_to_sigstop_if_not_defined` (lines 85-87):

    if SIGMAP[signum] == -1:
        SIGMAP[signum] = signal.SIGSTOP

The subscript raises KeyError when `signum` is not a key of `SIGMAP`. -/
def set_rewrite_to_sigstop_if_not_defined (sigmap : SigMap) (signum : Int) :
    Except PyExc SigMap :=
  match sigmap.ints signum with
  | none => .error .keyError
  | some v => if v = -1 then .ok (sigmap.setInt signum SIGSTOP) else .ok sigmap

/-! ### Helper lemmas and sample states -/

/-- A concrete process state: fresh tables, the `child_pid` field
holding 42 (the value `run`'s fork would have recorded in the global had
it declared `global child_pid`; reachably the global holds only -1),
`use_setsid` on, nothing pending. -/
def sampleSt : St :=
  { sigmap := initSIGMAP
    ignored := initIGNORED
    child_pid := 42
    use_setsid := true
    pending := [] }

/-- Draining a queue in which every pid is positive and none is the
tracked child reaps everything: no kills, no exit, empty remainder. -/
theorem reap_loop_nonchild (sigmap : SigMap) (child_pid : Int)
    (use_setsid : Bool) (l : List (Int × WaitStatus))
    (h : ∀ p ∈ l, p.1 > 0 ∧ p.1 ≠ child_pid) :
    reap_loop sigmap child_pid use_setsid l = ([], none, []) := by
  induction l with
  | nil => rfl
  | cons p rest ih =>
    have hp := h p (List.mem_cons_self p rest)
    have hrest : ∀ q ∈ rest, q.1 > 0 ∧ q.1 ≠ child_pid :=
      fun q hq => h q (List.mem_cons_of_mem p hq)
    obtain ⟨pid, status⟩ := p
    simp only [reap_loop]
    rw [if_pos hp.1, if_neg hp.2]
    exact ih hrest

/-! ### Claims -/

/-- C5: for every signal number with no explicit rewrite entry —
either the key is absent from `SIGMAP` or it still holds the initial
sentinel -1 — `translate_signal` returns the signal number unchanged:
the default is pass-through for all signals. -/
theorem translate_signal_passthrough_default (m : SigMap) (signum : Int)
    (h : m.ints signum = none ∨ m.ints signum = some (-1)) :
    translate_signal m signum = signum := by
  rcases h with h | h <;> · simp [translate_signal, SigMap.getD, h]

/-- Witness for C5: signal 5 has its initial sentinel entry -1 in the
fresh table, and `translate_signal` passes it through (the source's own
`test_translate_signal` asserts this very equation). -/
theorem translate_signal_passthrough_default_witness :
    translate_signal initSIGMAP 5 = 5 :=
  translate_signal_passthrough_default initSIGMAP 5 (Or.inr rfl)

/-- C10: `translate_signal` is total over all integer inputs. It is
embedded as a total pure function `SigMap → Int → Int`, which is exactly
the source's behavior: the guard uses `SIGMAP.get(signum, -1)` (never a
raising subscript; the subscript on line 26 runs only when the get
already found a value), so no KeyError can arise, and the function only
reads the table, never writes it. For any input with no table entry —
in particular negative values and values above MAXSIG, which the
initial table does not contain — it returns the input itself. -/
theorem translate_signal_total_no_entry (m : SigMap) (signum : Int)
    (h : m.ints signum = none) :
    translate_signal m signum = signum := by
  simp [translate_signal, SigMap.getD, h]

/-- Witness for C10: a negative signal number and one above MAXSIG,
absent from the fresh table, both come back unchanged (the source's
`test_translate_signal` asserts `translate_signal(-1) == -1`). -/
theorem translate_signal_total_no_entry_witness :
    translate_signal initSIGMAP (-1) = -1 ∧
    translate_signal initSIGMAP 40 = 40 :=
  ⟨translate_signal_total_no_entry initSIGMAP (-1) rfl,
   translate_signal_total_no_entry initSIGMAP 40 rfl⟩

/-- C7 (code bug): `forward_signal` does send the translated signal to
`-child_pid` when `use_setsid` is truthy, else to `child_pid` — but the
`child_pid` it reads is the module global, which is permanently -1: the
assignment `child_pid = os.fork()` in `run` (line 115) has no
`global child_pid` declaration and binds a local, so the recorded pid
never reaches this function. Every forward therefore executes
`os.kill(-(-1), s)`, i.e. `os.kill(1, s)` (or `os.kill(-1, s)` with
`use_setsid` falsy) — never the tracked child's process group or pid as
the claim requires. Shown here for an incoming SIGTERM on a fresh
table. -/
theorem forward_signal_global_child_pid_bug :
    forward_signal initSIGMAP (-1) true SIGTERM = [Action.kill 1 SIGTERM] ∧
    forward_signal initSIGMAP (-1) false SIGTERM =
      [Action.kill (-1) SIGTERM] := ⟨rfl, rfl⟩

/-- C2 counterexample evidence: after installing the mapping 5 ↦ 0
(spec: "suppress"), `translate_signal(5)` returns 5, NOT 0, because the
guard `SIGMAP.get(signum, -1) > 0` treats a stored 0 exactly like the
unset sentinel; consequently a forward of signal 5 DOES send signal 5 to
the child. The "ignored" branch of `forward_signal` (its `else` on line
39) is unreachable for any mapped signal because of this guard, which
shows the suppress behavior the spec describes is intended but broken. -/
theorem translate_signal_zero_mapping_not_suppressed :
    translate_signal (initSIGMAP.setInt 5 0) 5 = 5 ∧
    forward_signal (initSIGMAP.setInt 5 0) 42 true 5 =
      [Action.kill (-42) 5] := ⟨rfl, rfl⟩

/-- C3 evidence: `parse_rewrite_signum` never converts the pieces of
`arg.split(":")` to ints, so the range check `signum < 1 or ...`
compares `str` with `int` and raises `TypeError`, which
`except ValueError` does not catch: the exception propagates to the
caller for the out-of-range pair "40:3" — and equally for the perfectly
valid pair "5:6" that the source's own `test_rewrite_parsing` expects to
succeed. The table is never assigned (the raise happens first). Only an
argument that fails tuple unpacking (wrong number of ":" pieces) takes
the claimed log-and-continue path. -/
theorem parse_rewrite_signum_type_error :
    parse_rewrite_signum initSIGMAP "40:3" = .error .typeError ∧
    parse_rewrite_signum initSIGMAP "5:6" = .error .typeError ∧
    parse_rewrite_signum initSIGMAP "nocolon" =
      .ok (initSIGMAP, true) := ⟨rfl, rfl, rfl⟩

/-- C9: `set_rewrite_to_sigstop_if_not_defined` installs SIGSTOP only
when the entry for `signum` still holds the unset sentinel -1; an
existing explicit mapping is left untouched; and applying it twice
equals applying it once. -/
theorem set_rewrite_to_sigstop_spec (m : SigMap) (signum v : Int)
    (h : m.ints signum = some v) :
    (v = -1 → set_rewrite_to_sigstop_if_not_defined m signum =
      .ok (m.setInt signum SIGSTOP)) ∧
    (v ≠ -1 → set_rewrite_to_sigstop_if_not_defined m signum = .ok m) ∧
    ((set_rewrite_to_sigstop_if_not_defined m signum).bind
        (fun m2 => set_rewrite_to_sigstop_if_not_defined m2 signum) =
      set_rewrite_to_sigstop_if_not_defined m signum) := by
  refine ⟨fun hv => ?_, fun hv => ?_, ?_⟩
  · simp [set_rewrite_to_sigstop_if_not_defined, h, hv]
  · simp [set_rewrite_to_sigstop_if_not_defined, h, hv]
  · by_cases hv : v = -1
    · simp [set_rewrite_to_sigstop_if_not_defined, h, hv, Except.bind,
        SigMap.setInt, SIGSTOP]
    · simp [set_rewrite_to_sigstop_if_not_defined, h, hv, Except.bind]

/-- Witness for C9: on the fresh table, SIGTSTP (20) holds the sentinel
-1, so the default-to-SIGSTOP mapping is installed. -/
theorem set_rewrite_to_sigstop_spec_witness :
    set_rewrite_to_sigstop_if_not_defined initSIGMAP SIGTSTP =
      .ok (initSIGMAP.setInt SIGTSTP SIGSTOP) :=
  (set_rewrite_to_sigstop_spec initSIGMAP SIGTSTP (-1) rfl).1 rfl

/-- C8: in the forwarding path of `handle_signal` (flag not armed, not
the child-death signal), the process sends itself a stop signal exactly
when the ORIGINAL, pre-translation signal is one of the three
TTY-control signals SIGTSTP, SIGTTOU, SIGTTIN — the self-stop comes
after the forward; for any other original signal the actions are the
forward alone. -/
theorem handle_signal_tty_self_stop (st : St) (signum : Int)
    (hign : st.ignored signum = some false) (hchld : signum ≠ SIGCHLD) :
    (signum = SIGTSTP ∨ signum = SIGTTOU ∨ signum = SIGTTIN →
      (handle_signal st signum).acts =
        forward_signal st.sigmap st.child_pid st.use_setsid signum ++
          [Action.selfStop]) ∧
    (¬(signum = SIGTSTP ∨ signum = SIGTTOU ∨ signum = SIGTTIN) →
      (handle_signal st signum).acts =
        forward_signal st.sigmap st.child_pid st.use_setsid signum) := by
  constructor <;> intro h <;>
    simp [handle_signal, hign, hchld, h, Outcome.acts]

/-- Witness for C8: SIGTSTP (20) on a fresh state forwards signal 20 to
the child's group and then stops the process itself. -/
theorem handle_signal_tty_self_stop_witness :
    (handle_signal sampleSt SIGTSTP).acts =
      [Action.kill (-42) SIGTSTP, Action.selfStop] :=
  (handle_signal_tty_self_stop sampleSt SIGTSTP rfl (by decide)).1
    (Or.inl rfl)

/-- C4: on a child-death notification whose pending queue holds any
number of coalesced deaths, all with positive pids and none the tracked
child, `handle_signal` drains the whole queue before returning to the
wait loop: the outcome is `continue_` (the loop stays RUNNING, the
process does not exit) with an emptied queue and no kills. -/
theorem reaper_drains_nonchild (st : St)
    (hign : st.ignored SIGCHLD = some false)
    (hpend : ∀ p ∈ st.pending, p.1 > 0 ∧ p.1 ≠ st.child_pid) :
    handle_signal st SIGCHLD = .continue_ { st with pending := [] } [] := by
  have hr := reap_loop_nonchild st.sigmap st.child_pid st.use_setsid
    st.pending hpend
  simp [handle_signal, hign, hr]

/-- Witness for C4: three coalesced deaths (pids 100, 101, 102), none
the tracked child 42; all three are reaped and the loop continues. -/
theorem reaper_drains_nonchild_witness :
    handle_signal
        { sampleSt with
            pending := [(100, .exited 0), (101, .signaled 2), (102, .exited 1)] }
        SIGCHLD =
      .continue_ { sampleSt with pending := [] } [] :=
  reaper_drains_nonchild
    { sampleSt with
        pending := [(100, .exited 0), (101, .signaled 2), (102, .exited 1)] }
    rfl (by decide)

/-- C1 (code bug): the comparison `killed_pid == child_pid` on line 62
compares each reaped pid against the module global `child_pid`, and the
global is permanently -1 — `run`'s `child_pid = os.fork()` (line 115)
lacks a `global` declaration and binds a local — while reaped pids are
always positive. So the `sys.exit(exit_status)` on line 65 is
unreachable: when the forked child dies (pid 42 here, killed by signal
9, reaped together with a second dead descendant), its death is drained
like any other and the loop just continues; the process never
terminates with the derived ExitStatus 137. The second conjunct shows
the behavior the claim describes, which only the unreachable state
whose `child_pid` field actually holds 42 would produce. -/
theorem reaper_global_child_pid_bug :
    handle_signal
        { sigmap := initSIGMAP, ignored := initIGNORED, child_pid := -1,
          use_setsid := true,
          pending := [(42, .signaled 9), (100, .exited 0)] } SIGCHLD =
      .continue_
        { sigmap := initSIGMAP, ignored := initIGNORED, child_pid := -1,
          use_setsid := true, pending := [] } [] ∧
    handle_signal
        { sampleSt with pending := [(42, .signaled 9), (100, .exited 0)] }
        SIGCHLD =
      .exit 137 [Action.kill (-42) SIGTERM] := ⟨rfl, rfl⟩

/-- C6: lifecycle of the ignore-once flags, for SIGHUP and SIGCONT
alike. (i) With the flag armed, the first occurrence is swallowed: no
kill happens and the only state change is clearing that flag. (ii) With
the flag clear, the occurrence is forwarded normally. (iii) No call of
`handle_signal` ever re-arms a cleared flag, so the flag is consumed at
most once and never reset afterward. -/
theorem ignored_once_flag_lifecycle (st st2 : St) (k s : Int) :
    (st.ignored SIGHUP = some true →
      handle_signal st SIGHUP =
        .continue_ { st with ignored := st.ignored.set SIGHUP false } []) ∧
    (st.ignored SIGHUP = some false →
      (handle_signal st SIGHUP).acts =
        forward_signal st.sigmap st.child_pid st.use_setsid SIGHUP) ∧
    (st.ignored SIGCONT = some true →
      handle_signal st SIGCONT =
        .continue_ { st with ignored := st.ignored.set SIGCONT false } []) ∧
    (st.ignored SIGCONT = some false →
      (handle_signal st SIGCONT).acts =
        forward_signal st.sigmap st.child_pid st.use_setsid SIGCONT) ∧
    (∀ st3, (handle_signal st2 s).state = some st3 →
      st2.ignored k = some false → st3.ignored k = some false) := by
  refine ⟨fun h => ?_, fun h => ?_, fun h => ?_, fun h => ?_,
    fun st3 hst hk => ?_⟩
  · simp [handle_signal, h]
  · simp only [handle_signal]
    rw [h]
    simp [SIGHUP, SIGCHLD, SIGTSTP, SIGTTOU, SIGTTIN, Outcome.acts]
  · simp [handle_signal, h]
  · simp only [handle_signal]
    rw [h]
    simp [SIGCONT, SIGCHLD, SIGTSTP, SIGTTOU, SIGTTIN, Outcome.acts]
  · unfold handle_signal at hst
    cases hig : st2.ignored s with
    | none => rw [hig] at hst; simp [Outcome.state] at hst
    | some b =>
      rw [hig] at hst
      cases b with
      | true =>
        simp only [Outcome.state, Option.some.injEq] at hst
        subst hst
        simp only [IgnMap.set]
        split <;> simp [hk]
      | false =>
        by_cases hs : s = SIGCHLD
        · rw [if_pos hs] at hst
          rcases hr : reap_loop st2.sigmap st2.child_pid st2.use_setsid
              st2.pending with ⟨acts, code, rest⟩
          rw [hr] at hst
          cases code with
          | none =>
            simp only [Outcome.state, Option.some.injEq] at hst
            subst hst
            exact hk
          | some c => simp [Outcome.state] at hst
        · rw [if_neg hs] at hst
          simp only [Outcome.state, Option.some.injEq] at hst
          subst hst
          exact hk

/-- Witness for C6: with the SIGHUP flag armed in a fresh state, the
first SIGHUP is swallowed with no kill and the flag cleared; with the
flag clear, SIGHUP is forwarded to the child's group. -/
theorem ignored_once_flag_lifecycle_witness :
    handle_signal { sampleSt with ignored := initIGNORED.set SIGHUP true }
        SIGHUP =
      .continue_
        { sampleSt with
            ignored := (initIGNORED.set SIGHUP true).set SIGHUP false } [] ∧
    (handle_signal sampleSt SIGHUP).acts = [Action.kill (-42) SIGHUP] := by
  have h := ignored_once_flag_lifecycle
    { sampleSt with ignored := initIGNORED.set SIGHUP true }
    sampleSt SIGHUP SIGTERM
  have h2 := ignored_once_flag_lifecycle sampleSt sampleSt SIGHUP SIGTERM
  exact ⟨h.1 rfl, h2.2.1 rfl⟩

end PyDumbInit
